import Mathlib

/-!
Verification of the order-execution guard pipeline of the crypto_trading_bot
repository against its natural-language specification.

The Lean definitions below are a shallow embedding of the Python source:

* `exchange/exits_addon.py` (string-embedded in `apply_patches.py`):
  `_dec_floor`, `_load_filters`, `_quant_price`, `_quant_qty`,
  `_clamp_percent_price`, `_ensure_gate`, `ensure_sl_on_exchange`,
  `ensure_tp_on_exchange`;
* `exchange/positions.py`: `PositionManager.calculate_position_size`;
* `runner/live.py`: `normalize_signal_obj` and its helpers `_to_float`, `_get`;
* `runner/live.bak_v8_guardrails.py` / `runner/live.bak_guardrails_v8.py`:
  the two `_check_emergency_stop` variants.

Python floats are modelled as rationals (`ℚ`); `Decimal(str(x))` values are
decimal-representable rationals.  Fallible code returns `Except`; values that
may be `None` are `Option`.  Exchange-client calls are modelled by explicit
oracle structures recording what each call would return.
-/

/-! ## Decimal quantization (`_dec_floor` / `_floor_to_step`)

`_dec_floor(x, step)` is
`float(Decimal(str(x)).quantize(Decimal(str(step)), rounding=ROUND_DOWN))`.
`Decimal.quantize` rounds to the *exponent* of its argument: the result is a
multiple of `10^(-e)` where `e` is the number of fractional digits of
`str(step)`, not necessarily a multiple of `step` itself.  We therefore carry
the step as a mantissa/exponent pair. -/

/-! ### Python string primitives

`str.upper()`, `str.strip()` and `"." `-splitting are re-implemented by
structural recursion over the character list, so that concrete inputs
evaluate inside proofs (the built-in `String.toUpper`/`String.trim` do not
reduce in the kernel). -/

/-- ASCII upper-casing of one character. -/
def chUpper (c : Char) : Char :=
  if 'a' ≤ c ∧ c ≤ 'z' then Char.ofNat (c.toNat - 32) else c

/-- `s.upper()`. -/
def pyUpper (s : String) : String := String.mk (s.data.map chUpper)

/-- Whitespace recognised by `str.strip()` (the forms met here). -/
def isWS (c : Char) : Bool := c = ' ' ∨ c = '\t' ∨ c = '\n' ∨ c = '\r'

/-- `s.strip()`. -/
def pyStrip (s : String) : String :=
  String.mk (((s.data.dropWhile isWS).reverse.dropWhile isWS).reverse)

/-- `s.split(".")[-1]`: the segment after the last dot (the whole string when
there is no dot). -/
def lastDotComp (s : String) : String :=
  String.mk ((s.data.reverse.takeWhile (fun c => c ≠ '.')).reverse)

/-- A decimal literal `m / 10^e`, as produced by `Decimal(str(step))`:
`m` is the mantissa, `e` the number of fractional digits (so the decimal's
exponent is `-e`). -/
structure Dec where
  m : ℕ
  e : ℕ
  deriving DecidableEq, Repr

/-- Numeric value of a decimal literal. -/
def Dec.val (d : Dec) : ℚ := (d.m : ℚ) / 10 ^ d.e

/-- `ROUND_DOWN` truncates toward zero. -/
def pyTruncInt (x : ℚ) : ℤ := if 0 ≤ x then ⌊x⌋ else -⌊-x⌋

/-- `Decimal(str(x)).quantize(Decimal with exponent -e, rounding=ROUND_DOWN)`:
truncate `x` toward zero at the `e`-th fractional digit. -/
def decQuantizeDown (x : ℚ) (e : ℕ) : ℚ := (pyTruncInt (x * 10 ^ e) : ℚ) / 10 ^ e

/-- `_dec_floor(x, step)` from `exchange/exits_addon.py` (identical to
`_floor_to_step` in `apply_unified_imba_patch.py`): `if step <= 0: return x`,
else quantize to the step's decimal exponent, rounding down. -/
def dec_floor (x : ℚ) (step : Dec) : ℚ :=
  if step.val ≤ 0 then x else decQuantizeDown x step.e

/-- Per-symbol exchange filters as cached by `_load_filters`:
`{"tick": .., "step": .., "min_not": .., "mup": .., "mdn": ..}`. -/
structure Filters where
  tick : Dec
  step : Dec
  min_not : ℚ
  mup : ℚ
  mdn : ℚ
  deriving DecidableEq, Repr

/-- `_quant_price(client, symbol, price)`: floor the price to the tick size of
the symbol's (already loaded) filters. -/
def quant_price (f : Filters) (price : ℚ) : ℚ := dec_floor price f.tick

/-- `_quant_qty(client, symbol, qty)`: floor the quantity to the step size of
the symbol's (already loaded) filters. -/
def quant_qty (f : Filters) (qty : ℚ) : ℚ := dec_floor qty f.step

/-! ## Exchange filter loading (`_load_filters`)

`_load_filters(client, symbol)` (cache-miss path) calls
`client.get_exchange_info()` with **no** surrounding `try/except`: an
exception from the metadata fetch propagates to the caller.  Defaults
`tick=0.01, step=0.001, min_not=5.0, mup=1.15, mdn=0.85` are only used when
the returned payload does not list the symbol (or lists it without the
corresponding filter entries). -/

/-- One entry of a symbol's `"filters"` list in the exchange-info payload. -/
inductive FilterEntry where
  | priceFilter (tickSize : Dec)
  | lotSize (stepSize : Dec)
  | marketLotSize (stepSize : Dec)
  | notional (minNotional : ℚ)
  | percentPrice (multiplierUp multiplierDown : ℚ)
  | otherFilter
  deriving DecidableEq, Repr

/-- One element of the `"symbols"` list in the exchange-info payload. -/
structure SymbolInfo where
  symbol : String
  filters : List FilterEntry
  deriving DecidableEq, Repr

/-- The defaults `tick = 0.01; step = 0.001; min_not = 5.0; mup = 1.15;
mdn = 0.85` that `_load_filters` starts from. -/
def defaultFilters : Filters := ⟨⟨1, 2⟩, ⟨1, 3⟩, 5, 23/20, 17/20⟩

/-- The body of `_load_filters`' inner `for f in si.get("filters", [])` loop:
each recognised filter entry overrides the corresponding default. -/
def applyFilterEntry (acc : Filters) : FilterEntry → Filters
  | .priceFilter t => { acc with tick := t }
  | .lotSize s => { acc with step := s }
  | .marketLotSize s => { acc with step := s }
  | .notional n => { acc with min_not := n }
  | .percentPrice up dn => { acc with mup := up, mdn := dn }
  | .otherFilter => acc

/-- `_load_filters(client, symbol)`, cache-miss path, from
`exchange/exits_addon.py` (the `apply_unified_imba_patch.py` copy is the
same on this path).  `fetch` is what `client.get_exchange_info()` does:
either raise (`Except.error`) or return a `"symbols"` list. -/
def load_filters (fetch : Except String (List SymbolInfo)) (symbol : String) :
    Except String Filters :=
  match fetch with
  | .error e => .error e
  | .ok symbols =>
      .ok (match symbols.find? (fun si => pyUpper si.symbol = pyUpper symbol) with
           | none => defaultFilters
           | some si => si.filters.foldl applyFilterEntry defaultFilters)

/-! ## Position sizer (`PositionManager.calculate_position_size`)

From `exchange/positions.py`.  The account balance is read inside the
function (`self.get_account_balance()`, which returns `0.0` on any client
failure) and is modelled as the `balance` argument; the configuration fields
read are `risk_per_trade_pct`, `sl_fixed_pct`, `leverage` and
`min_notional_usdt`.  The whole body is wrapped in `try/except` returning
`0.0`, but no arithmetic on rationals can raise: division by the stop
distance happens only after `sl_distance <= 0` was ruled out, and the
minimum-notional bump divides by `max(1e-9, entry_price)`. -/

/-- Configuration fields consumed by `calculate_position_size`. -/
structure SizerConfig where
  risk_per_trade_pct : ℚ
  sl_fixed_pct : ℚ
  leverage : ℚ
  min_notional_usdt : ℚ
  deriving DecidableEq, Repr

/-- `PositionManager.calculate_position_size(symbol, entry_price,
stop_loss_price)`.  `float(self.config.min_notional_usdt or 5.0)` falls back
to `5.0` exactly when the configured value is falsy (zero). -/
def calculate_position_size (cfg : SizerConfig) (balance entry_price stop_loss_price : ℚ) : ℚ :=
  if balance ≤ 0 then 0
  else
    let risk_amount := balance * (cfg.risk_per_trade_pct / 100)
    let sl_distance :=
      if stop_loss_price ≤ 0 then entry_price * (cfg.sl_fixed_pct / 100)
      else |entry_price - stop_loss_price|
    if sl_distance ≤ 0 then 0
    else
      let position_size := risk_amount / sl_distance * cfg.leverage
      let min_notional := if cfg.min_notional_usdt = 0 then 5 else cfg.min_notional_usdt
      if position_size * entry_price < min_notional then
        min_notional / max (1 / 1000000000) entry_price
      else position_size

/-! ## Emergency stop (`LiveTradingEngine._check_emergency_stop`)

Two variants exist in the repository.  Metric reads are wrapped in
`try/except`; a failed read is modelled as `none`:

* in `live.bak_v8_guardrails.py` a failed `get_daily_pnl` becomes `0.0`,
  a failed balance read leaves `balance = None` (the comparison is guarded by
  `balance is not None`), and a failed `get_max_drawdown` becomes `0.0`;
* in `live.bak_guardrails_v8.py` a failed `get_daily_pnl` becomes `0.0`,
  `_get_account_balance` itself returns `0.0` on failure, and a failed
  `get_max_drawdown` skips the whole drawdown block (`except: pass`). -/

/-- Configuration fields read by `_check_emergency_stop` (`dry_run` is only
consulted by the `live.bak_guardrails_v8.py` variant). -/
structure EmergencyConfig where
  max_daily_loss : ℚ
  min_account_balance : ℚ
  max_drawdown : ℚ
  dry_run : Bool
  deriving DecidableEq, Repr

/-- The three metric reads; `none` models a read that raised. -/
structure EmMetrics where
  daily_pnl : Option ℚ
  balance : Option ℚ
  max_dd : Option ℚ
  deriving DecidableEq, Repr

/-- `_check_emergency_stop` from `runner/live.bak_v8_guardrails.py`
(lines 619-659): every threshold comparison is guarded by `> 0`, so a zero
threshold disables that check. -/
def check_emergency_stop_v1 (cfg : EmergencyConfig) (m : EmMetrics) : Bool :=
  let daily_pnl := m.daily_pnl.getD 0
  if cfg.max_daily_loss > 0 ∧ daily_pnl < -|cfg.max_daily_loss| then true
  else if (match m.balance with
           | some b => decide (cfg.min_account_balance > 0 ∧ b < cfg.min_account_balance)
           | none => false) then true
  else
    let max_dd := m.max_dd.getD 0
    decide (max_dd > cfg.max_drawdown ∧ cfg.max_drawdown > 0)

/-- `_check_emergency_stop` from `runner/live.bak_guardrails_v8.py`
(lines 499-530): the daily-loss comparison `daily_pnl < -abs(max_daily_loss)`
is **not** guarded by `max_daily_loss > 0`. -/
def check_emergency_stop_v2 (cfg : EmergencyConfig) (m : EmMetrics) : Bool :=
  if cfg.dry_run then false
  else if (m.daily_pnl.getD 0) < -|cfg.max_daily_loss| then true
  else if cfg.min_account_balance > 0 ∧ (m.balance.getD 0) < cfg.min_account_balance then true
  else
    match m.max_dd with
    | some curr_dd => decide (cfg.max_drawdown > 0 ∧ curr_dd > cfg.max_drawdown)
    | none => false

/-! ## Exit manager (`ensure_sl_on_exchange` / `ensure_tp_on_exchange`)

From `exchange/exits_addon.py`.  The per-symbol, per-kind cooldown state
`_EXIT_STATE` is a map `symbol -> {key -> last_timestamp}` with
`st.get(key, 0.0)` defaulting to `0.0`; we model it as a total function.
The exchange client is an oracle recording what each call would return;
`_load_filters` is modelled as already cached (`client.filters`), since the
fetch-failure behaviour is settled separately through `load_filters`. -/

/-- `_EXIT_STATE`: last-ensure timestamp per symbol and kind (default `0.0`). -/
def GateState := String → String → ℚ

/-- `_ensure_gate(symbol, key, cooldown_s)` evaluated at time `now`: returns
whether the gate opens, together with the updated state (the timestamp is
written the moment the gate passes, before any order is attempted). -/
def ensure_gate (st : GateState) (symbol key : String) (cooldown_s now : ℚ) :
    Bool × GateState :=
  if now - st symbol key < cooldown_s then (false, st)
  else (true, fun s k => if s = symbol ∧ k = key then now else st s k)

/-- Configuration fields read by the exit-ensure functions. -/
structure ExitConfig where
  place_exits_on_exchange : Bool
  dry_run : Bool
  exit_replace_cooldown : ℚ
  deriving DecidableEq, Repr

/-- Outcome of one `client.place_order(**params)` call: either an
acknowledgement or a raised exception whose message may contain the
substrings the retry logic greps for (`"Precision"/"precision"` and
`"ReduceOnly"/"-2022"`). -/
structure PlaceErr where
  precision : Bool
  reduceOnly : Bool
  deriving DecidableEq, Repr

/-- Result of a `place_order` call. -/
inductive PlaceRes where
  | ok
  | err (e : PlaceErr)
  deriving DecidableEq, Repr

/-- `_pos_to_close_side(pos_side)`. -/
def pos_to_close_side (pos_side : String) : String :=
  let s := pyUpper pos_side
  if s = "LONG" ∨ s = "BUY" ∨ s = "B" then "SELL"
  else if s = "SHORT" ∨ s = "SELL" ∨ s = "S" then "BUY"
  else "SELL"

/-- `_clamp_percent_price(client, symbol, price)`: clamp to the percent-price
band around `_mark_or_last` (`mark = 0.0` is falsy, so `ref` falls back to
the price itself), then floor to tick size. -/
def clamp_percent_price (f : Filters) (mark price : ℚ) : ℚ :=
  let ref := if mark = 0 then price else mark
  let lo := ref * f.mdn
  let hi := ref * f.mup
  dec_floor (min (max price lo) hi) f.tick

/-- Status field of the result dicts. -/
inductive EnsureStatus where
  | OK
  | SKIP
  | ERROR
  deriving DecidableEq, Repr

/-- Result dict of `ensure_sl_on_exchange`. -/
structure SLResult where
  status : EnsureStatus
  reason : Option String
  stopPrice : Option ℚ
  dryRun : Bool
  deriving DecidableEq, Repr

/-- Client oracle for `ensure_sl_on_exchange`: the loaded filters, the value
of `_mark_or_last` (`0.0` when both mark and ticker fail), and the outcome of
the single `STOP_MARKET` placement. -/
structure SLClient where
  filters : Filters
  mark : ℚ
  placeRes : PlaceRes
  deriving Repr

/-- `ensure_sl_on_exchange(client, symbol, position_side, stop_price,
working_type, eps_ticks)` at time `now`, returning the result dict and the
updated `_EXIT_STATE`. -/
def ensure_sl_on_exchange (cfg : ExitConfig) (cl : SLClient) (st : GateState)
    (symbol position_side : String) (stop_price : ℚ) (eps_ticks : ℚ) (now : ℚ) :
    SLResult × GateState :=
  if ¬cfg.place_exits_on_exchange then (⟨.SKIP, some "exits disabled", none, false⟩, st)
  else if cfg.dry_run then (⟨.OK, none, none, true⟩, st)
  else
    let g := ensure_gate st symbol "sl" cfg.exit_replace_cooldown now
    if ¬g.1 then (⟨.SKIP, some "cooldown", none, false⟩, g.2)
    else
      let tick := cl.filters.tick.val
      let close_side := pos_to_close_side position_side
      let sp0 := stop_price
      let sp1 :=
        if 0 < cl.mark then
          if close_side = "SELL" then
            if cl.mark ≤ sp0 then max (cl.mark - eps_ticks * tick) tick else sp0
          else
            if sp0 ≤ cl.mark then cl.mark + eps_ticks * tick else sp0
        else sp0
      let sp := dec_floor sp1 cl.filters.tick
      match cl.placeRes with
      | .ok => (⟨.OK, none, some sp, false⟩, g.2)
      | .err _ => (⟨.ERROR, some "error", none, false⟩, g.2)

/-- Client oracle for `ensure_tp_on_exchange`: the loaded filters, the value
of `_mark_or_last`, the `clientOrderId`s returned by `get_open_orders`, the
absolute position amount `get_positions` would report for this symbol, and
the outcomes of the first placement (`place1 i`) and the single retry
(`place2 i`) for the leg at 1-based index `i`. -/
structure TPClient where
  filters : Filters
  mark : ℚ
  openOrders : List String
  positionAmt : ℚ
  place1 : ℕ → PlaceRes
  place2 : ℕ → PlaceRes

/-- `part_qty = _quant_qty(client, symbol, float(qty) * float(share))`. -/
def tpPartQty (f : Filters) (qty share : ℚ) : ℚ := quant_qty f (qty * share)

/-- `raw_px = entry_price * (1 ± level/100)` depending on the position side. -/
def tpRawPx (isLong : Bool) (entry_price level : ℚ) : ℚ :=
  if isLong then entry_price * (1 + level / 100) else entry_price * (1 - level / 100)

/-- `px = _clamp_percent_price(client, symbol, raw_px)`. -/
def tpPx (f : Filters) (mark : ℚ) (isLong : Bool) (entry_price level : ℚ) : ℚ :=
  clamp_percent_price f mark (tpRawPx isLong entry_price level)

/-- How one `(level, share)` leg of the take-profit ladder ends up counted. -/
inductive LegRes where
  | placedR
  | skippedR
  | failsR
  deriving DecidableEq, Repr

/-- One iteration of the `for i, (level, share) in enumerate(zip(...), 1)`
loop in `ensure_tp_on_exchange`: the leg's count bucket together with the
number of `place_order` calls it performs.  Mirrors the source order: the
`share <= 0`, `part_qty <= 0` and min-notional guards skip; placement
failures go through the `"Precision"` retry (an `elif` — a failed precision
retry does not fall into the reduce-only branch) or the `"ReduceOnly"` clamp
retry, and otherwise count as failed. -/
def tpLeg (cl : TPClient) (isLong : Bool) (qty entry_price : ℚ) (i : ℕ)
    (level share : ℚ) : LegRes × ℕ :=
  let f := cl.filters
  if share ≤ 0 then (.skippedR, 0)
  else
    let part_qty := tpPartQty f qty share
    if part_qty ≤ 0 then (.skippedR, 0)
    else
      let px := tpPx f cl.mark isLong entry_price level
      if part_qty * px < f.min_not then (.skippedR, 0)
      else
        match cl.place1 i with
        | .ok => (.placedR, 1)
        | .err e =>
          if e.precision then
            match cl.place2 i with
            | .ok => (.placedR, 2)
            | .err _ => (.failsR, 2)
          else if e.reduceOnly then
            let part_qty2 := quant_qty f (min part_qty cl.positionAmt)
            if 0 < part_qty2 ∧ f.min_not ≤ part_qty2 * px then
              match cl.place2 i with
              | .ok => (.placedR, 2)
              | .err _ => (.failsR, 2)
            else (.failsR, 1)
          else (.failsR, 1)

/-- Aggregates of the take-profit loop: the `placed`/`skipped`/`fails`
counters plus the total number of `place_order` calls made. -/
structure LoopAcc where
  placed : ℕ
  skipped : ℕ
  fails : ℕ
  placeCalls : ℕ
  deriving DecidableEq, Repr

/-- The take-profit leg loop over `zip(tp_levels_pct, tp_shares)`, with
1-based leg index `i`. -/
def tpLoop (cl : TPClient) (isLong : Bool) (qty entry_price : ℚ) :
    ℕ → List (ℚ × ℚ) → LoopAcc
  | _, [] => ⟨0, 0, 0, 0⟩
  | i, (level, share) :: rest =>
      let r := tpLeg cl isLong qty entry_price i level share
      let acc := tpLoop cl isLong qty entry_price (i + 1) rest
      match r.1 with
      | .placedR => ⟨acc.placed + 1, acc.skipped, acc.fails, acc.placeCalls + r.2⟩
      | .skippedR => ⟨acc.placed, acc.skipped + 1, acc.fails, acc.placeCalls + r.2⟩
      | .failsR => ⟨acc.placed, acc.skipped, acc.fails + 1, acc.placeCalls + r.2⟩

/-- Result dict of `ensure_tp_on_exchange`. -/
structure TPResult where
  status : EnsureStatus
  reason : Option String
  placed : ℕ
  skipped : ℕ
  fails : ℕ
  dryRun : Bool
  deriving DecidableEq, Repr

/-- Exchange side effects of one `ensure_tp_on_exchange` call: how many
`place_order` and `cancel_order` requests were issued. -/
structure Effects where
  placeCalls : ℕ
  cancelCalls : ℕ
  deriving DecidableEq, Repr

/-- `ensure_tp_on_exchange(client, symbol, position_side, qty, entry_price,
tp_levels_pct, tp_shares, tif, tp_prefix)` at time `now`: result dict,
updated `_EXIT_STATE`, and the side effects issued.  Old TP orders whose
`clientOrderId` starts with `tp_prefix` are cancelled after the cooldown
gate passes and before the ladder loop. -/
def ensure_tp_on_exchange (cfg : ExitConfig) (cl : TPClient) (st : GateState)
    (symbol position_side : String) (qty entry_price : ℚ)
    (tp_levels_pct tp_shares : List ℚ) (tpPrefix : String) (now : ℚ) :
    TPResult × GateState × Effects :=
  if ¬cfg.place_exits_on_exchange then (⟨.SKIP, some "exits disabled", 0, 0, 0, false⟩, st, ⟨0, 0⟩)
  else if cfg.dry_run then (⟨.OK, none, 0, 0, 0, true⟩, st, ⟨0, 0⟩)
  else
    let g := ensure_gate st symbol "tp" cfg.exit_replace_cooldown now
    if ¬g.1 then (⟨.SKIP, some "cooldown", 0, 0, 0, false⟩, g.2, ⟨0, 0⟩)
    else
      let cancels := (cl.openOrders.filter (fun coid => tpPrefix.isPrefixOf coid)).length
      let isLong := pyUpper position_side = "LONG" ∨ pyUpper position_side = "BUY"
      let acc := tpLoop cl isLong qty entry_price 1 (tp_levels_pct.zip tp_shares)
      (⟨if 0 < acc.placed then .OK else .SKIP, none, acc.placed, acc.skipped, acc.fails, false⟩,
       g.2, ⟨acc.placeCalls, cancels⟩)

/-! ## Signal normalizer (`normalize_signal_obj`, `runner/live.py`)

Raw upstream values are modelled by `RawVal` (`None`, a string, or a float);
a raw signal is `None`, a bare string, a tuple/list of values, or a
mapping/object with named fields (`_get` tries attributes and dict keys with
the same fallthrough semantics, so both shapes collapse to one field list).
`pyFloat` models Python's `float(..)` coercion on such values — it fails
(`ValueError`/`TypeError`) exactly where `float` raises; the string parser
covers plain decimal literals with optional sign, which suffices for every
token this code meets.  `str()` of a float is some digit string, never a
side token, so it is modelled by the placeholder `"<num>"`. -/

/-- A dynamic Python value as seen by the normalizer. -/
inductive RawVal where
  | vnone
  | vstr (s : String)
  | vnum (x : ℚ)
  deriving DecidableEq, Repr

/-- A raw signal: `None`, a bare string, a 0-or-more element tuple/list, or
a mapping/object with named fields. -/
inductive RawSignal where
  | rnone
  | rstr (s : String)
  | rseq (elems : List RawVal)
  | rmap (fields : List (String × RawVal))
  deriving DecidableEq, Repr

/-- `str(v)` for the values the normalizer stringifies. -/
def pyStr : RawVal → String
  | .vnone => "None"
  | .vstr s => s
  | .vnum _ => "<num>"

/-- Split a character list at its first `'.'`. -/
def splitFirstDot : List Char → Option (List Char × List Char)
  | [] => none
  | x :: xs =>
      if x = '.' then some ([], xs)
      else (splitFirstDot xs).map (fun p => (x :: p.1, p.2))

/-- Value of a digit list. -/
def digitsVal (cs : List Char) : ℕ :=
  cs.foldl (fun a c => a * 10 + (c.toNat - 48)) 0

/-- Unsigned decimal literal: `"12"`, `"12.5"`, `"12."`, `".5"`. -/
def parseUFloat (cs : List Char) : Option ℚ :=
  match splitFirstDot cs with
  | none => if cs ≠ [] ∧ cs.all Char.isDigit then some (digitsVal cs) else none
  | some (a, b) =>
      if (a ≠ [] ∨ b ≠ []) ∧ a.all Char.isDigit ∧ b.all Char.isDigit then
        some ((digitsVal a : ℚ) + (digitsVal b : ℚ) / 10 ^ b.length)
      else none

/-- `float(s)` on a string: optional sign then a decimal literal, else
`ValueError`.  (Exponent/infinity forms are outside what this code meets.) -/
def strFloat? (s : String) : Option ℚ :=
  match s.data with
  | '-' :: rest => (parseUFloat rest).map (fun q => -q)
  | '+' :: rest => parseUFloat rest
  | _ => parseUFloat s.data

/-- `float(v)` on a dynamic value: numbers pass through, strings parse or
raise `ValueError`, `None` raises `TypeError`. -/
def pyFloat : RawVal → Except String ℚ
  | .vnum x => .ok x
  | .vstr s =>
      match strFloat? (pyStrip s) with
      | some q => .ok q
      | none => .error "ValueError"
  | .vnone => .error "TypeError"

/-- `_to_float(x)` from `runner/live.py`: total, returns `None` on anything
it cannot coerce (the `try/except` swallows parse failures). -/
def to_float : RawVal → Option ℚ
  | .vnone => none
  | .vnum x => some x
  | .vstr s => if pyStrip s = "" then none else strFloat? (pyStrip s)

/-- Python truthiness of a raw value (`None`, `0.0` and `""` are falsy). -/
def isFalsy : RawVal → Bool
  | .vnone => true
  | .vnum x => x = 0
  | .vstr s => s = ""

/-- `_get(obj, *names, default=..)`: try each name in order, return the
first present field (even if its value is `None`), else the default. -/
def getField (fields : List (String × RawVal)) : List String → RawVal → RawVal
  | [], d => d
  | n :: rest, d =>
      match fields.lookup n with
      | some v => v
      | none => getField fields rest d

/-- The side-token resolution of the general (mapping/object) case:
`str(side_raw).upper()`, and if the result is not `BUY`/`SELL` but contains
a dot (e.g. `"SignalType.BUY"`), keep only the last dot component. -/
def resolveSideStr (side_raw : RawVal) : Option String :=
  match side_raw with
  | .vnone => none
  | v =>
      let s := pyUpper (pyStr v)
      some (if s ≠ "BUY" ∧ s ≠ "SELL" ∧ s.data.contains '.' then lastDotComp s else s)

/-- The normalized signal record (`NormalizedSignal`), minus the `timestamp`
and `meta` bookkeeping fields, which no claim concerns and whose values are
wall-clock dependent. -/
structure NormSignal where
  symbol : String
  side : String
  strength : ℚ
  entry_price : Option ℚ
  deriving DecidableEq, Repr

/-- `normalize_signal_obj(raw, symbol_default)` from `runner/live.py`
(lines 112-183).  `Except.error` models an uncaught exception escaping the
function; `Except.ok none` models the `return None` "skip" outcome.

Faithful details: a bare string — `"BUY"`/`"SELL"` included — always returns
`None`; a 2-3 element tuple evaluates `float(raw[1])` (unguarded — it raises
on a non-coercible, non-`None` value) *before* testing the side token, and a
tuple side token other than `BUY`/`SELL` falls through to the general case,
where every `_get` lookup on a sequence fails and the final side check
returns `None`; the general case coerces strength inside `try/except`,
defaulting to `0.0`. -/
def normalize_signal_obj (raw : RawSignal) (symbol_default : Option String) :
    Except String (Option NormSignal) :=
  match raw with
  | .rnone => .ok none
  | .rstr _ => .ok none
  | .rseq elems =>
      if elems.length = 2 ∨ elems.length = 3 then
        let side := pyUpper (pyStr (elems.headD .vnone))
        let strengthE :=
          match elems.getD 1 .vnone with
          | .vnone => Except.ok (0 : ℚ)
          | v => pyFloat v
        match strengthE with
        | .error e => .error e
        | .ok strength =>
          let price := if elems.length = 3 then to_float (elems.getD 2 .vnone) else none
          if side = "BUY" ∨ side = "SELL" then
            .ok (some ⟨symbol_default.getD "UNKNOWN", side, strength, price⟩)
          else .ok none
      else .ok none
  | .rmap fields =>
      let sideStr := resolveSideStr (getField fields ["side", "signal_type", "direction"] .vnone)
      let symbol := pyStr (getField fields ["symbol"] (.vstr (symbol_default.getD "UNKNOWN")))
      let strengthV :=
        let v := getField fields ["strength", "confidence", "score"] (.vnum 0)
        if isFalsy v then .vnum 0 else v
      let price := to_float (getField fields ["entry_price", "price", "entry"] .vnone)
      match sideStr with
      | some s =>
          if s = "BUY" ∨ s = "SELL" then
            let strength := match pyFloat strengthV with | .ok x => x | .error _ => 0
            .ok (some ⟨symbol, s, strength, price⟩)
          else .ok none
      | none => .ok none


/-! ## Helper lemmas -/

/-- A decimal with positive mantissa has positive value. -/
theorem Dec.val_pos {d : Dec} (h : 0 < d.m) : 0 < d.val := by
  unfold Dec.val
  positivity

/-- Truncation toward zero of a value below it in absolute terms:
for `0 ≤ x` it is the integer floor. -/
theorem pyTruncInt_of_nonneg {x : ℚ} (hx : 0 ≤ x) : pyTruncInt x = ⌊x⌋ := by
  simp [pyTruncInt, hx]

/-- Truncating an integer gives it back. -/
theorem pyTruncInt_intCast (n : ℤ) : pyTruncInt (n : ℚ) = n := by
  unfold pyTruncInt
  by_cases h : (0 : ℚ) ≤ (n : ℚ)
  · simp [h]
  · simp only [h, if_false]
    rw [← Int.cast_neg, Int.floor_intCast]
    omega

/-- `decQuantizeDown` does not increase a non-negative value. -/
theorem decQuantizeDown_le {x : ℚ} (e : ℕ) (hx : 0 ≤ x) : decQuantizeDown x e ≤ x := by
  unfold decQuantizeDown
  rw [pyTruncInt_of_nonneg (by positivity)]
  rw [div_le_iff (by positivity : (0:ℚ) < 10 ^ e)]
  exact Int.floor_le _

/-- `dec_floor` never exceeds a non-negative input. -/
theorem dec_floor_le {x : ℚ} (d : Dec) (hx : 0 ≤ x) : dec_floor x d ≤ x := by
  unfold dec_floor
  split
  · exact le_rfl
  · exact decQuantizeDown_le d.e hx

/-- A quantized value sits on the decimal grid `k / 10^e` of the step's
exponent. -/
theorem dec_floor_on_grid (x : ℚ) {d : Dec} (h : 0 < d.m) :
    ∃ k : ℤ, dec_floor x d = (k : ℚ) / 10 ^ d.e := by
  unfold dec_floor
  rw [if_neg (not_le.mpr (Dec.val_pos h))]
  exact ⟨pyTruncInt (x * 10 ^ d.e), rfl⟩

/-- `decQuantizeDown` is idempotent. -/
theorem decQuantizeDown_idem (x : ℚ) (e : ℕ) :
    decQuantizeDown (decQuantizeDown x e) e = decQuantizeDown x e := by
  unfold decQuantizeDown
  rw [div_mul_cancel₀ _ (by positivity : (10:ℚ) ^ e ≠ 0), pyTruncInt_intCast]

/-- `dec_floor` is idempotent. -/
theorem dec_floor_idem (x : ℚ) (d : Dec) : dec_floor (dec_floor x d) d = dec_floor x d := by
  unfold dec_floor
  split
  · rfl
  · exact decQuantizeDown_idem x d.e

/-! ## Claim theorems -/

/-- C6, counterexample: with tick size `0.5` (a legal positive filter
increment whose mantissa is not 1), `quantize_price` leaves `0.7` unchanged,
and `0.7` is not an integer multiple of `0.5` — so the result is not always
an exact multiple of the increment. -/
theorem C6_quantize_counterexample :
    quant_price ⟨⟨5, 1⟩, ⟨1, 3⟩, 5, 23/20, 17/20⟩ (7/10) = 7/10
    ∧ Dec.val ⟨5, 1⟩ = 1/2
    ∧ ∀ k : ℤ, (k : ℚ) * (1/2) ≠ 7/10 := by
  refine ⟨?_, ?_, ?_⟩
  · norm_num [quant_price, dec_floor, Dec.val, decQuantizeDown, pyTruncInt]
  · norm_num [Dec.val]
  · intro k h
    have h5 : (k : ℚ) * 5 = 7 := by linarith
    have : (k * 5 : ℤ) = 7 := by exact_mod_cast h5
    omega

/-- C6 (amended): for `x ≥ 0` and a positive increment, `quantize_price` /
`quantize_qty` floor (never exceed `x`) onto the decimal grid `k·10^(-e)` of
the increment's last decimal digit; the result is an exact integer multiple
of the increment itself exactly in the common case of a unit-mantissa
increment (`10^(-e)`, e.g. 0.01 or 0.001), not for increments like 0.5. -/
theorem C6_quantize_amended (f : Filters) (x : ℚ) (hx : 0 ≤ x)
    (ht : 0 < f.tick.m) (hs : 0 < f.step.m) :
    (quant_price f x ≤ x ∧ ∃ k : ℤ, quant_price f x = (k : ℚ) / 10 ^ f.tick.e)
    ∧ (quant_qty f x ≤ x ∧ ∃ k : ℤ, quant_qty f x = (k : ℚ) / 10 ^ f.step.e)
    ∧ (f.tick.m = 1 → ∃ k : ℤ, quant_price f x = (k : ℚ) * f.tick.val)
    ∧ (f.step.m = 1 → ∃ k : ℤ, quant_qty f x = (k : ℚ) * f.step.val) := by
  refine ⟨⟨dec_floor_le _ hx, dec_floor_on_grid _ ht⟩,
          ⟨dec_floor_le _ hx, dec_floor_on_grid _ hs⟩, ?_, ?_⟩
  · intro h1
    obtain ⟨k, hk⟩ := dec_floor_on_grid x ht
    exact ⟨k, by rw [quant_price, hk, Dec.val, h1]; push_cast; ring⟩
  · intro h1
    obtain ⟨k, hk⟩ := dec_floor_on_grid x hs
    exact ⟨k, by rw [quant_qty, hk, Dec.val, h1]; push_cast; ring⟩

/-- Witness for C6 (amended) at `x = 0.1234` with the default filters
(tick 0.01, step 0.001). -/
theorem C6_quantize_amended_witness :
    (quant_price defaultFilters (1234/10000) ≤ 1234/10000
      ∧ ∃ k : ℤ, quant_price defaultFilters (1234/10000) = (k : ℚ) / 10 ^ (2 : ℕ))
    ∧ (quant_qty defaultFilters (1234/10000) ≤ 1234/10000
      ∧ ∃ k : ℤ, quant_qty defaultFilters (1234/10000) = (k : ℚ) / 10 ^ (3 : ℕ))
    ∧ ((1 : ℕ) = 1 → ∃ k : ℤ, quant_price defaultFilters (1234/10000)
        = (k : ℚ) * Dec.val ⟨1, 2⟩)
    ∧ ((1 : ℕ) = 1 → ∃ k : ℤ, quant_qty defaultFilters (1234/10000)
        = (k : ℚ) * Dec.val ⟨1, 3⟩) :=
  C6_quantize_amended defaultFilters (1234/10000) (by norm_num)
    (by norm_num [defaultFilters]) (by norm_num [defaultFilters])

/-- C7: floor-to-increment quantization is idempotent, for every value and
every fixed per-symbol filter set, for both `quantize_price` and
`quantize_qty`. -/
theorem C7_quantize_idempotent (f : Filters) (x : ℚ) :
    quant_price f (quant_price f x) = quant_price f x
    ∧ quant_qty f (quant_qty f x) = quant_qty f x :=
  ⟨dec_floor_idem x f.tick, dec_floor_idem x f.step⟩

/-- C9, counterexample: when the exchange metadata fetch raises,
`_load_filters` does **not** fall back to defaults — the exception
propagates out of the filter lookup (there is no `try/except` around
`client.get_exchange_info()`). -/
theorem C9_filters_counterexample :
    load_filters (.error "ConnectionError") "BTCUSDT" = .error "ConnectionError"
    ∧ load_filters (.error "ConnectionError") "BTCUSDT" ≠ .ok defaultFilters := by
  exact ⟨rfl, by simp [load_filters]⟩

/-- C9 (amended): the permissive defaults `tick=0.01, step=0.001,
min_notional=5.0` are returned when the metadata *response* does not list
the symbol (in particular for an empty response) — but an *exception* from
the metadata fetch propagates out of `_load_filters` instead of falling
back to the defaults. -/
theorem C9_filters_amended (symbols : List SymbolInfo) (sym e : String)
    (h : symbols.find? (fun si => pyUpper si.symbol = pyUpper sym) = none) :
    load_filters (.ok symbols) sym = .ok defaultFilters
    ∧ load_filters (.error e) sym = .error e
    ∧ defaultFilters.tick.val = 1/100
    ∧ defaultFilters.step.val = 1/1000
    ∧ defaultFilters.min_not = 5 := by
  refine ⟨?_, rfl, by norm_num [defaultFilters, Dec.val], by norm_num [defaultFilters, Dec.val],
    rfl⟩
  simp only [load_filters, h]

/-- Witness for C9 (amended): an empty symbols list for `BTCUSDT`. -/
theorem C9_filters_amended_witness :
    load_filters (.ok []) "BTCUSDT" = .ok defaultFilters
    ∧ load_filters (.error "timeout") "BTCUSDT" = .error "timeout"
    ∧ defaultFilters.tick.val = 1/100
    ∧ defaultFilters.step.val = 1/1000
    ∧ defaultFilters.min_not = 5 :=
  C9_filters_amended [] "BTCUSDT" "timeout" rfl

/-- C1, counterexample: `calculate_position_size` has no `entry_price <= 0`
guard.  With config `risk_per_trade_pct=1, sl_fixed_pct=1, leverage=5,
min_notional_usdt=5`, balance 1000, `entry_price = 0` and an explicit stop
at 100, the stop distance is `|0 - 100| = 100 > 0`, the division is
performed, and the minimum-notional bump returns
`5 / max(1e-9, 0) = 5·10^9`, not `0.0`. -/
theorem C1_sizer_counterexample :
    calculate_position_size ⟨1, 1, 5, 5⟩ 1000 0 100 = 5000000000
    ∧ calculate_position_size ⟨1, 1, 5, 5⟩ 1000 0 100 ≠ 0 := by
  constructor
  · norm_num [calculate_position_size]
  · norm_num [calculate_position_size]

/-- C1 (amended): with a non-negative configuration, the sizer is
non-negative for all `balance ≥ 0`, `entry_price ≥ 0`; it returns exactly
`0` when `balance ≤ 0`, and when the stop distance in force is non-positive
(with no explicit positive stop this covers `entry_price ≤ 0`); but with an
explicit positive stop, a positive balance and `entry_price = 0` it instead
returns `min_notional / max(1e-9, 0) = min_notional·10^9 > 0` — the
`entry_price ≤ 0 → 0` guard claimed by the spec is absent (no exception and
no division by a non-positive distance occurs either way). -/
theorem C1_sizer_amended (cfg : SizerConfig) (balance entry_price stop_loss_price : ℚ)
    (hb : 0 ≤ balance) (he : 0 ≤ entry_price)
    (hr : 0 ≤ cfg.risk_per_trade_pct) (hl : 0 ≤ cfg.leverage)
    (hm : 0 ≤ cfg.min_notional_usdt) :
    0 ≤ calculate_position_size cfg balance entry_price stop_loss_price
    ∧ (balance ≤ 0 → calculate_position_size cfg balance entry_price stop_loss_price = 0)
    ∧ (stop_loss_price ≤ 0 → entry_price * (cfg.sl_fixed_pct / 100) ≤ 0 →
        calculate_position_size cfg balance entry_price stop_loss_price = 0)
    ∧ (0 < balance → 0 < stop_loss_price → entry_price = 0 →
        calculate_position_size cfg balance entry_price stop_loss_price
          = (if cfg.min_notional_usdt = 0 then 5 else cfg.min_notional_usdt) * 1000000000) := by
  have hM0 : 0 ≤ (if cfg.min_notional_usdt = 0 then (5:ℚ) else cfg.min_notional_usdt) := by
    split_ifs with h
    · norm_num
    · exact hm
  refine ⟨?_, ?_, ?_, ?_⟩
  · simp only [calculate_position_size]
    by_cases h1 : balance ≤ 0
    · rw [if_pos h1]
    · rw [if_neg h1]
      generalize (if stop_loss_price ≤ 0 then entry_price * (cfg.sl_fixed_pct / 100)
          else |entry_price - stop_loss_price|) = D
      by_cases h2 : D ≤ 0
      · rw [if_pos h2]
      · rw [if_neg h2]
        generalize (if cfg.min_notional_usdt = 0 then (5:ℚ) else cfg.min_notional_usdt) = M
          at hM0 ⊢
        split
        · exact div_nonneg hM0 (le_trans (by norm_num : (0:ℚ) ≤ 1/1000000000) le_sup_left)
        · refine mul_nonneg (div_nonneg (mul_nonneg hb ?_) (not_le.mp h2).le) hl
          exact div_nonneg hr (by norm_num)
  · intro h
    simp only [calculate_position_size]
    rw [if_pos h]
  · intro hst hsl
    simp only [calculate_position_size]
    by_cases h1 : balance ≤ 0
    · rw [if_pos h1]
    · rw [if_neg h1, if_pos hst, if_pos hsl]
  · intro h1 h2 h3
    subst h3
    simp only [calculate_position_size]
    rw [if_neg (not_le.mpr h1), if_neg (not_le.mpr h2)]
    have habs : |(0:ℚ) - stop_loss_price| = stop_loss_price := by
      rw [zero_sub, abs_neg, abs_of_pos h2]
    rw [habs, if_neg (not_le.mpr h2), mul_zero]
    have hM : 0 < (if cfg.min_notional_usdt = 0 then (5:ℚ) else cfg.min_notional_usdt) := by
      split_ifs with h
      · norm_num
      · exact lt_of_le_of_ne hm (Ne.symm h)
    rw [if_pos hM]
    have hmax : (1/1000000000 : ℚ) ⊔ 0 = 1/1000000000 := max_eq_left (by norm_num)
    rw [hmax, div_eq_mul_inv]
    norm_num

/-- Witness for C1 (amended): config `risk=1%, sl_fixed=1%, leverage=5,
min_notional=5`, balance 1000, entry 2, stop 1. -/
theorem C1_sizer_amended_witness :
    0 ≤ calculate_position_size ⟨1, 1, 5, 5⟩ 1000 2 1
    ∧ ((1000 : ℚ) ≤ 0 → calculate_position_size ⟨1, 1, 5, 5⟩ 1000 2 1 = 0)
    ∧ ((1 : ℚ) ≤ 0 → (2 : ℚ) * ((1 : ℚ) / 100) ≤ 0 →
        calculate_position_size ⟨1, 1, 5, 5⟩ 1000 2 1 = 0)
    ∧ ((0 : ℚ) < 1000 → (0 : ℚ) < 1 → (2 : ℚ) = 0 →
        calculate_position_size ⟨1, 1, 5, 5⟩ 1000 2 1
          = (if (5 : ℚ) = 0 then 5 else 5) * 1000000000) :=
  C1_sizer_amended ⟨1, 1, 5, 5⟩ 1000 2 1 (by norm_num) (by norm_num) (by norm_num)
    (by norm_num) (by norm_num)

/-- C2, counterexample: in the `live.bak_guardrails_v8.py` variant, with all
three thresholds zero, `dry_run` off and a daily PnL of −1, the
emergency-stop check halts: its daily-loss comparison
`daily_pnl < -abs(max_daily_loss)` is not guarded by `max_daily_loss > 0`,
so a zero threshold there means "zero tolerance", not "disabled". -/
theorem C2_emergency_counterexample :
    check_emergency_stop_v2 ⟨0, 0, 0, false⟩ ⟨some (-1), some 100, some 0⟩ = true := by
  norm_num [check_emergency_stop_v2]

/-- C2 (amended): with `max_daily_loss = min_account_balance = max_drawdown
= 0`, the `live.bak_v8_guardrails.py` variant of `_check_emergency_stop`
returns false for every metrics state (zero disables each check); the
`live.bak_guardrails_v8.py` variant does so only when `dry_run` is set or
the daily PnL is non-negative — its unguarded daily-loss comparison halts on
any negative daily PnL even with a zero threshold. -/
theorem C2_emergency_amended (m : EmMetrics) (d : Bool) :
    check_emergency_stop_v1 ⟨0, 0, 0, d⟩ m = false
    ∧ check_emergency_stop_v2 ⟨0, 0, 0, true⟩ m = false
    ∧ (0 ≤ m.daily_pnl.getD 0 → check_emergency_stop_v2 ⟨0, 0, 0, false⟩ m = false) := by
  refine ⟨?_, ?_, ?_⟩
  · simp only [check_emergency_stop_v1]
    norm_num
    cases m.balance <;> cases m.max_dd <;> simp
  · simp [check_emergency_stop_v2]
  · intro h
    simp only [check_emergency_stop_v2]
    norm_num [not_lt.mpr h]
    cases m.max_dd <;> simp

/-- Witness for C2 (amended): metrics `daily_pnl=5, balance=50, drawdown=0.1`. -/
theorem C2_emergency_amended_witness :
    check_emergency_stop_v1 ⟨0, 0, 0, false⟩ ⟨some 5, some 50, some (1/10)⟩ = false
    ∧ check_emergency_stop_v2 ⟨0, 0, 0, true⟩ ⟨some 5, some 50, some (1/10)⟩ = false
    ∧ (0 ≤ (Option.getD (some (5:ℚ)) 0) →
        check_emergency_stop_v2 ⟨0, 0, 0, false⟩ ⟨some 5, some 50, some (1/10)⟩ = false) :=
  C2_emergency_amended ⟨some 5, some 50, some (1/10)⟩ false

/-- C4, counterexample: a bare string `"BUY"` — listed by the spec as an
accepted shape with a recognizable side — is dropped (`None`), not turned
into a Signal; and the side token `"LONG"` — which the spec maps to `BUY` —
is likewise dropped by the mapping shape. -/
theorem C4_normalizer_counterexample :
    normalize_signal_obj (.rstr "BUY") (some "BTCUSDT") = .ok none
    ∧ normalize_signal_obj (.rmap [("side", .vstr "LONG")]) (some "BTCUSDT") = .ok none := by
  constructor
  · rfl
  · simp +decide [normalize_signal_obj, resolveSideStr, getField, pyStr, pyUpper, chUpper]

/-- C4 (amended): the recognized side tokens are exactly `BUY` and `SELL`
(case-folded; the mapping shape additionally strips a dotted prefix such as
`SignalType.BUY`): any Signal the normalizer produces has side `BUY` or
`SELL`; the mapping shape never raises and yields a Signal whenever its side
field resolves to `BUY`/`SELL`; a 2-element sequence with such a side token
and a float-coercible strength yields a Signal; but `LONG/SHORT/B/S/L` are
*not* mapped (they resolve to `None`), and a bare string — `"BUY"`/`"SELL"`
included — is always dropped as `None`. -/
theorem C4_normalizer_amended (fields : List (String × RawVal)) (dflt : Option String)
    (s t : String) (v0 v1 : RawVal) (q : ℚ) :
    (∀ sig, normalize_signal_obj (.rmap fields) dflt = .ok (some sig) →
        sig.side = "BUY" ∨ sig.side = "SELL")
    ∧ (∃ r, normalize_signal_obj (.rmap fields) dflt = .ok r)
    ∧ normalize_signal_obj (.rstr s) dflt = .ok none
    ∧ (getField fields ["side", "signal_type", "direction"] .vnone = .vstr t →
        (pyUpper t = "BUY" ∨ pyUpper t = "SELL") →
        ∃ sig, normalize_signal_obj (.rmap fields) dflt = .ok (some sig)
          ∧ sig.side = pyUpper t)
    ∧ (getField fields ["side", "signal_type", "direction"] .vnone = .vstr "LONG" →
        normalize_signal_obj (.rmap fields) dflt = .ok none)
    ∧ ((pyUpper (pyStr v0) = "BUY" ∨ pyUpper (pyStr v0) = "SELL") →
        pyFloat v1 = .ok q →
        normalize_signal_obj (.rseq [v0, v1]) dflt
          = .ok (some ⟨dflt.getD "UNKNOWN", pyUpper (pyStr v0), q, none⟩)) := by
  refine ⟨?_, ?_, rfl, ?_, ?_, ?_⟩
  · intro sig h
    cases hr : resolveSideStr (getField fields ["side", "signal_type", "direction"] .vnone) with
    | none =>
        simp only [normalize_signal_obj, hr] at h
        exact absurd h (by simp)
    | some s' =>
      simp only [normalize_signal_obj, hr] at h
      by_cases hs : s' = "BUY" ∨ s' = "SELL"
      · rw [if_pos hs] at h
        simp only [Except.ok.injEq, Option.some.injEq] at h
        subst h
        exact hs
      · rw [if_neg hs] at h
        exact absurd h (by simp)
  · cases hN : normalize_signal_obj (.rmap fields) dflt with
    | ok r => exact ⟨r, rfl⟩
    | error e =>
        exfalso
        cases hr : resolveSideStr (getField fields ["side", "signal_type", "direction"] .vnone) with
        | none =>
            simp only [normalize_signal_obj, hr] at hN
            exact absurd hN (by simp)
        | some s' =>
            simp only [normalize_signal_obj, hr] at hN
            by_cases hs : s' = "BUY" ∨ s' = "SELL"
            · rw [if_pos hs] at hN
              exact absurd hN (by simp)
            · rw [if_neg hs] at hN
              exact absurd hN (by simp)
  · intro hside hup
    have hres : resolveSideStr (.vstr t) = some (pyUpper t) := by
      simp only [resolveSideStr, pyStr]
      rcases hup with h | h <;> rw [h] <;> simp
    simp only [normalize_signal_obj, hside, hres, if_pos hup]
    exact ⟨_, rfl, rfl⟩
  · intro hside
    have hres : resolveSideStr (.vstr "LONG") = some "LONG" := by decide
    simp only [normalize_signal_obj, hside, hres]
    rw [if_neg (by decide : ¬("LONG" = "BUY" ∨ "LONG" = "SELL"))]
  · intro hup hflt
    cases v1 with
    | vnone => exact absurd hflt (by simp [pyFloat])
    | vstr s1 =>
        simp only [normalize_signal_obj, List.headD, List.getD, List.get?, List.length_cons,
          List.length_nil, if_pos hup]
        norm_num
        rw [hflt]
    | vnum x =>
        simp only [pyFloat, Except.ok.injEq] at hflt
        subst hflt
        simp only [normalize_signal_obj, List.headD, List.getD, List.get?, List.length_cons,
          List.length_nil, pyFloat, if_pos hup]
        norm_num

/-- Witness for C4 (amended): a mapping with side field `"buy"` yields a
`BUY` Signal. -/
theorem C4_normalizer_amended_witness :
    ∃ sig, normalize_signal_obj (.rmap [("side", RawVal.vstr "buy")]) (some "BTCUSDT")
        = .ok (some sig) ∧ sig.side = pyUpper "buy" :=
  (C4_normalizer_amended [("side", .vstr "buy")] (some "BTCUSDT") "x" "buy"
      (.vstr "x") (.vnum 1) 1).2.2.2.1 rfl (Or.inl (by decide))

/-- C5: the normalizer is *not* total.  On the tuple `("BUY", "abc")` the
unguarded `float(raw[1])` in the sequence branch raises `ValueError` instead
of defaulting the strength to `0.0` — while the mapping branch, as the spec
describes, catches the same coercion failure and defaults to `0.0`.  The
spec (and the function's own contract of returning a Signal or `None`) is
the intent; the missing `try/except` in the tuple branch is the slip. -/
theorem C5_normalizer_raises :
    normalize_signal_obj (.rseq [.vstr "BUY", .vstr "abc"]) (some "BTCUSDT")
      = .error "ValueError"
    ∧ normalize_signal_obj (.rmap [("side", .vstr "BUY"), ("strength", .vstr "abc")])
        (some "BTCUSDT") = .ok (some ⟨"BTCUSDT", "BUY", 0, none⟩) := by
  constructor
  · simp +decide [normalize_signal_obj, pyFloat, pyStrip, isWS, strFloat?, parseUFloat,
      splitFirstDot, pyStr, pyUpper, chUpper]
  · simp +decide [normalize_signal_obj, resolveSideStr, getField, List.lookup, isFalsy,
      to_float, pyStrip, isWS, strFloat?, parseUFloat, splitFirstDot, digitsVal, pyStr,
      pyUpper, chUpper, pyFloat, lastDotComp]

/-- C3: a second `ensure_tp_on_exchange` call for the same symbol within
`exit_replace_cooldown` seconds of a previous gate-passing call returns
`{"status":"SKIP","reason":"cooldown"}`, leaves the cooldown state
untouched, and issues zero `place_order` and zero `cancel_order` requests —
regardless of the second call's client, side, quantities, levels or shares
(identical inputs included). -/
theorem C3_tp_cooldown_idempotent (cfg : ExitConfig) (cl cl2 : TPClient) (st : GateState)
    (symbol ps ps2 : String) (qty ep qty2 ep2 : ℚ) (lv sh lv2 sh2 : List ℚ)
    (pfx pfx2 : String) (t1 t2 : ℚ)
    (hen : cfg.place_exits_on_exchange = true) (hdr : cfg.dry_run = false)
    (hopen : ¬ (t1 - st symbol "tp" < cfg.exit_replace_cooldown))
    (hcool : t2 - t1 < cfg.exit_replace_cooldown) :
    ensure_tp_on_exchange cfg cl2
        ((ensure_tp_on_exchange cfg cl st symbol ps qty ep lv sh pfx t1).2.1)
        symbol ps2 qty2 ep2 lv2 sh2 pfx2 t2
      = (⟨.SKIP, some "cooldown", 0, 0, 0, false⟩,
         (ensure_tp_on_exchange cfg cl st symbol ps qty ep lv sh pfx t1).2.1, ⟨0, 0⟩) := by
  have hst1 : (ensure_tp_on_exchange cfg cl st symbol ps qty ep lv sh pfx t1).2.1
      = fun s k => if s = symbol ∧ k = "tp" then t1 else st s k := by
    simp only [ensure_tp_on_exchange, hen, hdr, ensure_gate, if_neg hopen]
    norm_num
  rw [hst1]
  have hlast : (fun s k => if s = symbol ∧ k = "tp" then t1 else st s k) symbol "tp" = t1 := by
    simp
  simp only [ensure_tp_on_exchange, hen, hdr, ensure_gate, hlast]
  simp [hcool]

/-- Witness for C3: default filters, cooldown 20s, first call at t=100
(gate open), second call at t=110. -/
theorem C3_tp_cooldown_idempotent_witness :
    ensure_tp_on_exchange ⟨true, false, 20⟩
        ⟨defaultFilters, 0, [], 0, fun _ => .ok, fun _ => .ok⟩
        ((ensure_tp_on_exchange ⟨true, false, 20⟩
            ⟨defaultFilters, 0, [], 0, fun _ => .ok, fun _ => .ok⟩
            (fun _ _ => 0) "BTCUSDT" "LONG" 1 50000 [1] [1] "TP-" 100).2.1)
        "BTCUSDT" "LONG" 1 50000 [1] [1] "TP-" 110
      = (⟨.SKIP, some "cooldown", 0, 0, 0, false⟩,
         (ensure_tp_on_exchange ⟨true, false, 20⟩
            ⟨defaultFilters, 0, [], 0, fun _ => .ok, fun _ => .ok⟩
            (fun _ _ => 0) "BTCUSDT" "LONG" 1 50000 [1] [1] "TP-" 100).2.1, ⟨0, 0⟩) :=
  C3_tp_cooldown_idempotent ⟨true, false, 20⟩
    ⟨defaultFilters, 0, [], 0, fun _ => .ok, fun _ => .ok⟩
    ⟨defaultFilters, 0, [], 0, fun _ => .ok, fun _ => .ok⟩
    (fun _ _ => 0) "BTCUSDT" "LONG" "LONG" 1 50000 1 50000 [1] [1] [1] [1] "TP-" "TP-"
    100 110 rfl rfl (by norm_num) (by norm_num)

/-- C10: the per-symbol, per-kind last-ensure timestamp is written the
moment the cooldown gate passes, before placement.  A `ensure_sl_on_exchange`
call whose placement raises (status `ERROR`) still stamps the `"sl"` slot
with its call time, and any call for that symbol and kind within the next
`exit_replace_cooldown` seconds returns `{"status":"SKIP","reason":
"cooldown"}` without re-attempting placement; likewise an
`ensure_tp_on_exchange` call stamps the `"tp"` slot at gate-pass time
whatever its legs then do, and a repeat within the window is skipped. -/
theorem C10_sl_cooldown_after_failure (cfg : ExitConfig) (cl cl2 : SLClient) (cl3 : TPClient)
    (st : GateState) (symbol ps ps2 ps3 : String) (sp sp2 eps eps2 qty ep : ℚ)
    (lv sh : List ℚ) (pfx : String) (t1 t2 : ℚ) (e : PlaceErr)
    (hen : cfg.place_exits_on_exchange = true) (hdr : cfg.dry_run = false)
    (hfail : cl.placeRes = .err e)
    (hopen : ¬ (t1 - st symbol "sl" < cfg.exit_replace_cooldown))
    (hopen3 : ¬ (t1 - st symbol "tp" < cfg.exit_replace_cooldown))
    (hcool : t2 - t1 < cfg.exit_replace_cooldown) :
    (ensure_sl_on_exchange cfg cl st symbol ps sp eps t1).1.status = .ERROR
    ∧ (ensure_sl_on_exchange cfg cl st symbol ps sp eps t1).2 symbol "sl" = t1
    ∧ ensure_sl_on_exchange cfg cl2 (ensure_sl_on_exchange cfg cl st symbol ps sp eps t1).2
        symbol ps2 sp2 eps2 t2
      = (⟨.SKIP, some "cooldown", none, false⟩,
         (ensure_sl_on_exchange cfg cl st symbol ps sp eps t1).2)
    ∧ (ensure_tp_on_exchange cfg cl3 st symbol ps3 qty ep lv sh pfx t1).2.1 symbol "tp" = t1
    ∧ ensure_tp_on_exchange cfg cl3
        ((ensure_tp_on_exchange cfg cl3 st symbol ps3 qty ep lv sh pfx t1).2.1)
        symbol ps3 qty ep lv sh pfx t2
      = (⟨.SKIP, some "cooldown", 0, 0, 0, false⟩,
         (ensure_tp_on_exchange cfg cl3 st symbol ps3 qty ep lv sh pfx t1).2.1, ⟨0, 0⟩) := by
  have h1 : ensure_sl_on_exchange cfg cl st symbol ps sp eps t1
      = (⟨.ERROR, some "error", none, false⟩,
         fun s k => if s = symbol ∧ k = "sl" then t1 else st s k) := by
    simp only [ensure_sl_on_exchange, hen, hdr, ensure_gate, if_neg hopen, hfail]
    norm_num
  have hst1 : (ensure_tp_on_exchange cfg cl3 st symbol ps3 qty ep lv sh pfx t1).2.1
      = fun s k => if s = symbol ∧ k = "tp" then t1 else st s k := by
    simp only [ensure_tp_on_exchange, hen, hdr, ensure_gate, if_neg hopen3]
    norm_num
  refine ⟨by rw [h1], by rw [h1]; simp, ?_, by rw [hst1]; simp, ?_⟩
  · rw [h1]
    have hlast : (fun s k => if s = symbol ∧ k = "sl" then t1 else st s k) symbol "sl" = t1 := by
      simp
    simp only [ensure_sl_on_exchange, hen, hdr, ensure_gate, hlast]
    simp [hcool]
  · rw [hst1]
    have hlast : (fun s k => if s = symbol ∧ k = "tp" then t1 else st s k) symbol "tp" = t1 := by
      simp
    simp only [ensure_tp_on_exchange, hen, hdr, ensure_gate, hlast]
    simp [hcool]

/-- Witness for C10: cooldown 20s, SL placement raising at t=100, repeat
call at t=110. -/
theorem C10_sl_cooldown_after_failure_witness :
    (ensure_sl_on_exchange ⟨true, false, 20⟩ ⟨defaultFilters, 0, .err ⟨false, false⟩⟩
        (fun _ _ => 0) "BTCUSDT" "LONG" 49000 3 100).1.status = .ERROR
    ∧ (ensure_sl_on_exchange ⟨true, false, 20⟩ ⟨defaultFilters, 0, .err ⟨false, false⟩⟩
        (fun _ _ => 0) "BTCUSDT" "LONG" 49000 3 100).2 "BTCUSDT" "sl" = 100
    ∧ ensure_sl_on_exchange ⟨true, false, 20⟩ ⟨defaultFilters, 0, .ok⟩
        (ensure_sl_on_exchange ⟨true, false, 20⟩ ⟨defaultFilters, 0, .err ⟨false, false⟩⟩
          (fun _ _ => 0) "BTCUSDT" "LONG" 49000 3 100).2
        "BTCUSDT" "LONG" 49000 3 110
      = (⟨.SKIP, some "cooldown", none, false⟩,
         (ensure_sl_on_exchange ⟨true, false, 20⟩ ⟨defaultFilters, 0, .err ⟨false, false⟩⟩
           (fun _ _ => 0) "BTCUSDT" "LONG" 49000 3 100).2)
    ∧ (ensure_tp_on_exchange ⟨true, false, 20⟩
        ⟨defaultFilters, 0, [], 0, fun _ => .err ⟨false, false⟩, fun _ => .err ⟨false, false⟩⟩
        (fun _ _ => 0) "BTCUSDT" "LONG" 1 50000 [1] [1] "TP-" 100).2.1 "BTCUSDT" "tp" = 100
    ∧ ensure_tp_on_exchange ⟨true, false, 20⟩
        ⟨defaultFilters, 0, [], 0, fun _ => .err ⟨false, false⟩, fun _ => .err ⟨false, false⟩⟩
        ((ensure_tp_on_exchange ⟨true, false, 20⟩
            ⟨defaultFilters, 0, [], 0, fun _ => .err ⟨false, false⟩, fun _ => .err ⟨false, false⟩⟩
            (fun _ _ => 0) "BTCUSDT" "LONG" 1 50000 [1] [1] "TP-" 100).2.1)
        "BTCUSDT" "LONG" 1 50000 [1] [1] "TP-" 110
      = (⟨.SKIP, some "cooldown", 0, 0, 0, false⟩,
         (ensure_tp_on_exchange ⟨true, false, 20⟩
            ⟨defaultFilters, 0, [], 0, fun _ => .err ⟨false, false⟩, fun _ => .err ⟨false, false⟩⟩
            (fun _ _ => 0) "BTCUSDT" "LONG" 1 50000 [1] [1] "TP-" 100).2.1, ⟨0, 0⟩) :=
  C10_sl_cooldown_after_failure ⟨true, false, 20⟩ ⟨defaultFilters, 0, .err ⟨false, false⟩⟩
    ⟨defaultFilters, 0, .ok⟩
    ⟨defaultFilters, 0, [], 0, fun _ => .err ⟨false, false⟩, fun _ => .err ⟨false, false⟩⟩
    (fun _ _ => 0) "BTCUSDT" "LONG" "LONG" "LONG" 49000 49000 3 3 1 50000 [1] [1] "TP-"
    100 110 ⟨false, false⟩ rfl rfl rfl (by norm_num) (by norm_num) (by norm_num)

/-- Every leg of the take-profit loop lands in exactly one of the three
counters: `placed + skipped + fails` equals the number of zipped legs. -/
theorem tpLoop_total (cl : TPClient) (isLong : Bool) (qty ep : ℚ) :
    ∀ (i : ℕ) (legs : List (ℚ × ℚ)),
      (tpLoop cl isLong qty ep i legs).placed + (tpLoop cl isLong qty ep i legs).skipped
        + (tpLoop cl isLong qty ep i legs).fails = legs.length := by
  intro i legs
  induction legs generalizing i with
  | nil => rfl
  | cons hd tl ih =>
      obtain ⟨level, share⟩ := hd
      have htail := ih (i + 1)
      rcases htl : tpLeg cl isLong qty ep i level share with ⟨res, n⟩
      cases res <;> simp only [tpLoop, htl, List.length_cons] <;> omega

/-- A leg with non-positive share, non-positive quantized partial quantity,
or sub-minimum notional is skipped: counted in `skipped` (never `fails`) and
placing no order. -/
theorem tpLeg_skip (cl : TPClient) (isLong : Bool) (qty ep : ℚ) (i : ℕ) (level share : ℚ)
    (h : share ≤ 0 ∨ tpPartQty cl.filters qty share ≤ 0
      ∨ tpPartQty cl.filters qty share * tpPx cl.filters cl.mark isLong ep level
          < cl.filters.min_not) :
    tpLeg cl isLong qty ep i level share = (.skippedR, 0) := by
  simp only [tpLeg]
  rcases h with h | h | h
  · rw [if_pos h]
  · by_cases h0 : share ≤ 0
    · rw [if_pos h0]
    · rw [if_neg h0, if_pos h]
  · by_cases h0 : share ≤ 0
    · rw [if_pos h0]
    · rw [if_neg h0]
      by_cases h1 : tpPartQty cl.filters qty share ≤ 0
      · rw [if_pos h1]
      · rw [if_neg h1, if_pos h]

/-- C8: in `ensure_tp_on_exchange` (with exits enabled, live mode, cooldown
gate open), every zipped `(level, share)` leg is counted in exactly one of
`placed`/`skipped`/`fails`; a leg whose share is ≤ 0, whose quantized
partial quantity is ≤ 0, or whose notional (partial quantity × clamped
price) is below `min_notional` is skipped — counted in `skipped`, not
`fails`, with no placement attempt — while the remaining legs are still
processed; and the returned status is `OK` if and only if at least one leg
was placed, else `SKIP`. -/
theorem C8_tp_ladder (cfg : ExitConfig) (cl : TPClient) (st : GateState)
    (symbol ps : String) (qty ep : ℚ) (lv sh : List ℚ) (pfx : String) (now : ℚ)
    (hen : cfg.place_exits_on_exchange = true) (hdr : cfg.dry_run = false)
    (hopen : ¬ (now - st symbol "tp" < cfg.exit_replace_cooldown)) :
    ((ensure_tp_on_exchange cfg cl st symbol ps qty ep lv sh pfx now).1.placed
      + (ensure_tp_on_exchange cfg cl st symbol ps qty ep lv sh pfx now).1.skipped
      + (ensure_tp_on_exchange cfg cl st symbol ps qty ep lv sh pfx now).1.fails
      = (lv.zip sh).length)
    ∧ ((ensure_tp_on_exchange cfg cl st symbol ps qty ep lv sh pfx now).1.status = .OK
      ↔ 0 < (ensure_tp_on_exchange cfg cl st symbol ps qty ep lv sh pfx now).1.placed)
    ∧ (∀ (isL : Bool) (i : ℕ) (level share : ℚ),
        share ≤ 0 ∨ tpPartQty cl.filters qty share ≤ 0
          ∨ tpPartQty cl.filters qty share * tpPx cl.filters cl.mark isL ep level
              < cl.filters.min_not →
        tpLeg cl isL qty ep i level share = (.skippedR, 0)) := by
  have key : (ensure_tp_on_exchange cfg cl st symbol ps qty ep lv sh pfx now).1
      = ⟨if 0 < (tpLoop cl (decide (pyUpper ps = "LONG" ∨ pyUpper ps = "BUY"))
              qty ep 1 (lv.zip sh)).placed
           then .OK else .SKIP, none,
         (tpLoop cl (decide (pyUpper ps = "LONG" ∨ pyUpper ps = "BUY")) qty ep 1
           (lv.zip sh)).placed,
         (tpLoop cl (decide (pyUpper ps = "LONG" ∨ pyUpper ps = "BUY")) qty ep 1
           (lv.zip sh)).skipped,
         (tpLoop cl (decide (pyUpper ps = "LONG" ∨ pyUpper ps = "BUY")) qty ep 1
           (lv.zip sh)).fails, false⟩ := by
    simp only [ensure_tp_on_exchange, hen, hdr, ensure_gate, if_neg hopen]
    norm_num
  refine ⟨?_, ?_, fun isL i level share h => tpLeg_skip cl isL qty ep i level share h⟩
  · rw [key]
    exact tpLoop_total cl _ qty ep 1 (lv.zip sh)
  · rw [key]
    by_cases hp : 0 < (tpLoop cl (decide (pyUpper ps = "LONG" ∨ pyUpper ps = "BUY"))
        qty ep 1 (lv.zip sh)).placed
    · simp only [if_pos hp]
      exact iff_of_true trivial hp
    · simp only [if_neg hp]
      exact iff_of_false (by simp) hp

/-- Witness for C8: ladder `levels=[1,2]`, `shares=[0.4,0]` (second leg has
zero share and is skipped), open gate at t=100. -/
theorem C8_tp_ladder_witness :
    ((ensure_tp_on_exchange ⟨true, false, 20⟩
        ⟨defaultFilters, 0, [], 0, fun _ => .ok, fun _ => .ok⟩ (fun _ _ => 0)
        "BTCUSDT" "LONG" 1 50000 [1, 2] [4/10, 0] "TP-" 100).1.placed
      + (ensure_tp_on_exchange ⟨true, false, 20⟩
        ⟨defaultFilters, 0, [], 0, fun _ => .ok, fun _ => .ok⟩ (fun _ _ => 0)
        "BTCUSDT" "LONG" 1 50000 [1, 2] [4/10, 0] "TP-" 100).1.skipped
      + (ensure_tp_on_exchange ⟨true, false, 20⟩
        ⟨defaultFilters, 0, [], 0, fun _ => .ok, fun _ => .ok⟩ (fun _ _ => 0)
        "BTCUSDT" "LONG" 1 50000 [1, 2] [4/10, 0] "TP-" 100).1.fails
      = (([1, 2] : List ℚ).zip ([4/10, 0] : List ℚ)).length)
    ∧ ((ensure_tp_on_exchange ⟨true, false, 20⟩
        ⟨defaultFilters, 0, [], 0, fun _ => .ok, fun _ => .ok⟩ (fun _ _ => 0)
        "BTCUSDT" "LONG" 1 50000 [1, 2] [4/10, 0] "TP-" 100).1.status = .OK
      ↔ 0 < (ensure_tp_on_exchange ⟨true, false, 20⟩
        ⟨defaultFilters, 0, [], 0, fun _ => .ok, fun _ => .ok⟩ (fun _ _ => 0)
        "BTCUSDT" "LONG" 1 50000 [1, 2] [4/10, 0] "TP-" 100).1.placed)
    ∧ tpLeg ⟨defaultFilters, 0, [], 0, fun _ => .ok, fun _ => .ok⟩ true 1 50000 2 2 0
      = (.skippedR, 0) :=
  ⟨(C8_tp_ladder ⟨true, false, 20⟩ ⟨defaultFilters, 0, [], 0, fun _ => .ok, fun _ => .ok⟩
      (fun _ _ => 0) "BTCUSDT" "LONG" 1 50000 [1, 2] [4/10, 0] "TP-" 100 rfl rfl
      (by norm_num)).1,
   (C8_tp_ladder ⟨true, false, 20⟩ ⟨defaultFilters, 0, [], 0, fun _ => .ok, fun _ => .ok⟩
      (fun _ _ => 0) "BTCUSDT" "LONG" 1 50000 [1, 2] [4/10, 0] "TP-" 100 rfl rfl
      (by norm_num)).2.1,
   (C8_tp_ladder ⟨true, false, 20⟩ ⟨defaultFilters, 0, [], 0, fun _ => .ok, fun _ => .ok⟩
      (fun _ _ => 0) "BTCUSDT" "LONG" 1 50000 [1, 2] [4/10, 0] "TP-" 100 rfl rfl
      (by norm_num)).2.2 true 2 2 0 (Or.inl le_rfl)⟩
